import Mathlib

/-!
Shallow embedding of the method-metadata cache (`src/agent/method_locals.cc`,
class `MethodLocals`) and the orchestrator (`src/agent/debugger.cc`, class
`Debugger`) of the cloud-debug-java agent, together with proofs of the
specified properties.

JVMTI introspection is injected as a record of deterministic query functions
(one per JVMTI call used by the code); each returns the `jvmtiError` code
together with the value its out-parameters would hold on success, mirroring
the C out-parameter convention.  Method handles (`jmethodID`) and class
handles (`jclass`) are opaque and modelled as natural numbers.
-/

/-- `jmethodID`: opaque method handle. -/
abbrev JMethodID : Type := Nat

/-- `jclass`: opaque class handle. -/
abbrev JClass : Type := Nat

/-- `JVMTI_ERROR_NONE` (jvmti.h). -/
def JVMTI_ERROR_NONE : Nat := 0

/-- `JVMTI_ERROR_ABSENT_INFORMATION` (jvmti.h). -/
def JVMTI_ERROR_ABSENT_INFORMATION : Nat := 101

/-- `JVMTI_ERROR_NATIVE_METHOD` (jvmti.h). -/
def JVMTI_ERROR_NATIVE_METHOD : Nat := 104

/-- `JVM_ACC_STATIC` modifier bit (0x0008). -/
def JVM_ACC_STATIC : Nat := 8

/-- `jvmtiLocalVariableEntry`: one raw row of the JVMTI local-variable table. -/
structure JvmtiLocalVariableEntry where
  start_location : Int
  length : Int
  name : String
  signature : String
  generic_signature : String
  slot : Int
deriving DecidableEq

/-- Modelled from the spec: `JvmLocalVariableReader`
(`jvm_local_variable_reader.h/.cc`, not part of the provided sources) is a
local-variable descriptor; its constructor, called from `method_locals.cc`,
captures the raw table entry and the is-argument flag.  We model it as a
record of exactly those two constructor arguments. -/
structure JvmLocalVariableReader where
  variable_entry : JvmtiLocalVariableEntry
  is_argument : Bool
deriving DecidableEq

/-- `MethodLocals::Entry`: optional local-instance descriptor plus the ordered
list of local-variable descriptors.  A default-constructed entry (`new Entry`)
has no local instance and no locals. -/
structure Entry where
  local_instance : Option JvmLocalVariableReader := none
  locals : List JvmLocalVariableReader := []
deriving DecidableEq

/-- `LocalVariablesVisibilityPolicy`: pluggable visibility policy consulted by
`LoadEntry`. -/
structure LocalVariablesVisibilityPolicy where
  IsLocalVariablesDebuggerVisible : JClass → JMethodID → Bool

/-- The JVMTI introspection capability used by `method_locals.cc`: each query
returns the `jvmtiError` code paired with the out-parameter values. -/
structure Jvmti where
  GetMethodDeclaringClass : JMethodID → Nat × JClass
  GetMethodModifiers : JMethodID → Nat × Nat
  GetClassSignature : JClass → Nat × String × String
  GetLocalVariableTable : JMethodID → Nat × List JvmtiLocalVariableEntry
  GetArgumentsSize : JMethodID → Nat × Int

/-- The C++ member `local_variables_visibility_policy_` is a possibly-null
pointer; `none` models a null policy. -/
abbrev PolicyPtr : Type := Option LocalVariablesVisibilityPolicy

/-- The guard `local_variables_visibility_policy_ &&
!local_variables_visibility_policy_->IsLocalVariablesDebuggerVisible(cls, method)`
of `method_locals.cc`. -/
def policyDenies (policy : PolicyPtr) (cls : JClass) (method : JMethodID) : Bool :=
  match policy with
  | none => false
  | some p => !(p.IsLocalVariablesDebuggerVisible cls method)

/-- `MethodLocals::LoadLocalInstance` (`method_locals.cc`): resolves the
"this" pseudo-variable.  Returns `none` (null `unique_ptr`) when
`GetMethodModifiers` fails, when the method is static, or when
`GetClassSignature` fails; otherwise a descriptor named "this" with slot 0,
`start_location` 0 and `length` -1, marked as an argument. -/
def LoadLocalInstance (jvmti : Jvmti) (cls : JClass) (method : JMethodID) :
    Option JvmLocalVariableReader :=
  let modifiersResult := jvmti.GetMethodModifiers method
  if modifiersResult.1 ≠ JVMTI_ERROR_NONE then
    none
  else if modifiersResult.2 &&& JVM_ACC_STATIC ≠ 0 then
    none  -- Local instance not available for static methods.
  else
    let signatureResult := jvmti.GetClassSignature cls
    if signatureResult.1 ≠ JVMTI_ERROR_NONE then
      none
    else
      some
        { variable_entry :=
            { start_location := 0
              length := -1  -- The local variable is available everywhere.
              name := "this"
              signature := signatureResult.2.1
              generic_signature := signatureResult.2.2
              slot := 0 }
          is_argument := true }

/-- `MethodLocals::LoadEntry` (`method_locals.cc`): the load algorithm.
`none` models the C++ `nullptr` return ("retry the operation in the future"). -/
def LoadEntry (policy : PolicyPtr) (jvmti : Jvmti) (method : JMethodID) :
    Option Entry :=
  let declaringResult := jvmti.GetMethodDeclaringClass method
  if declaringResult.1 ≠ JVMTI_ERROR_NONE then
    none  -- Retry the operation in the future.
  else
    let cls := declaringResult.2
    let local_instance := LoadLocalInstance jvmti cls method
    if policyDenies policy cls method then
      -- The policy for this method is not to show local variables.
      some { local_instance := local_instance, locals := [] }
    else
      let tableResult := jvmti.GetLocalVariableTable method
      if tableResult.1 ≠ JVMTI_ERROR_NONE ∧
         tableResult.1 ≠ JVMTI_ERROR_ABSENT_INFORMATION ∧
         tableResult.1 ≠ JVMTI_ERROR_NATIVE_METHOD then
        none  -- Retry the operation in the future.
      else if tableResult.1 ≠ JVMTI_ERROR_NONE then
        -- No debugging information or a JNI method: entry without locals.
        some { local_instance := local_instance, locals := [] }
      else
        let table := tableResult.2
        let arguments_size : Int :=
          if 0 < table.length then
            let argumentsResult := jvmti.GetArgumentsSize method
            if argumentsResult.1 ≠ JVMTI_ERROR_NONE then 0 else argumentsResult.2
          else 0
        some
          { local_instance := local_instance
            locals := table.map fun v =>
              { variable_entry := v
                is_argument := decide (v.slot < arguments_size) } }

/-- The `method_vars_` mapping (`std::map<jmethodID, std::shared_ptr<const Entry>>`),
modelled by its abstract lookup function. -/
abbrev Cache : Type := JMethodID → Option Entry

/-- An empty `method_vars_` mapping. -/
def emptyCache : Cache := fun _ => none

/-- `method_vars_.erase(method)`. -/
def method_vars_erase (c : Cache) (method : JMethodID) : Cache :=
  fun k => if k = method then none else c k

/-- `method_vars_.insert(std::make_pair(method, locals))` followed by reading
`in.first->second`: `std::map::insert` does not overwrite — if a mapping for
`method` already exists it is kept and returned, otherwise the new mapping is
added and the new value returned. -/
def method_vars_insert (c : Cache) (method : JMethodID) (locals : Entry) :
    Cache × Entry :=
  match c method with
  | some existing => (c, existing)
  | none => ((fun k => if k = method then some locals else c k), locals)

/-- `MethodLocals::JvmtiOnCompiledMethodUnload` (`method_locals.cc`): erases
the handle's mapping. -/
def MethodLocals_JvmtiOnCompiledMethodUnload (c : Cache) (method : JMethodID) :
    Cache :=
  method_vars_erase c method

/-- Case 2 of `MethodLocals::GetLocalVariables`: the slow path, run after the
read-locked lookup missed.  It is parametrised by the cache state `c` observed
when the write lock is (re)acquired, which under concurrency may differ from
the state at lookup time.  On load failure it returns a fresh default entry
and leaves the cache untouched. -/
def getLocalVariablesSlowPath (policy : PolicyPtr) (jvmti : Jvmti) (c : Cache)
    (method : JMethodID) : Cache × Entry :=
  match LoadEntry policy jvmti method with
  | none => (c, {})  -- Failure: return std::shared_ptr<Entry>(new Entry).
  | some locals => method_vars_insert c method locals

/-- `MethodLocals::GetLocalVariables` (`method_locals.cc`), race-free
(sequential) execution: fast-path lookup, then the slow path on a miss. -/
def GetLocalVariables (policy : PolicyPtr) (jvmti : Jvmti) (c : Cache)
    (method : JMethodID) : Cache × Entry :=
  match c method with
  | some entry => (c, entry)  -- Case 1: cached.
  | none => getLocalVariablesSlowPath policy jvmti c method

/-- A sequence of `GetLocalVariables` calls for the same handle, each call `i`
observing the JVMTI environment `js[i]` (the environment may answer
differently over time, e.g. fail transiently and later succeed); returns the
final cache. -/
def runGetLocalVariables (policy : PolicyPtr) (c : Cache) (method : JMethodID) :
    List Jvmti → Cache
  | [] => c
  | jvmti :: rest =>
      runGetLocalVariables policy (GetLocalVariables policy jvmti c method).1
        method rest

/-- N threads racing on a cold cache, linearised by the write lock: each
thread has already computed its own candidate entry (its element of `es`) and
performs the insert-or-discard step in this order, receiving the entry that
`in.first->second` denotes. -/
def concurrentFirstAccess (c : Cache) (method : JMethodID) :
    List Entry → Cache × List Entry
  | [] => (c, [])
  | e :: rest =>
      let step := method_vars_insert c method e
      let tail := concurrentFirstAccess step.1 method rest
      (tail.1, step.2 :: tail.2)

/-- Kind of lock acquisition on `mu_`.  Modelled from the spec: the `MutexLock`
wrapper class (`mutex.h`, not part of the provided sources) is described by the
spec as a reader/writer lock; the source's `reader_lock` instance is mapped to
a shared acquisition and its `writer_lock` instance to an exclusive one. -/
inductive LockKind where
  | shared
  | exclusive
deriving DecidableEq

/-- The observable steps of a `MethodLocals` cache operation. -/
inductive CacheAction where
  | findMethod
  | loadEntryCall
  | allocEmptyEntry
  | insertMethod
  | eraseMethod
deriving DecidableEq

/-- An event in the instrumented execution of a cache operation. -/
inductive CacheEv where
  | acq (k : LockKind)
  | rel (k : LockKind)
  | act (a : CacheAction)
deriving DecidableEq

/-- Instrumented `MethodLocals::GetLocalVariables`: the sequence of lock and
cache events its statements perform, in program order (`method_locals.cc`
lines 38-64). -/
def GetLocalVariablesTrace (policy : PolicyPtr) (jvmti : Jvmti) (c : Cache)
    (method : JMethodID) : List CacheEv :=
  match c method with
  | some _ =>
      [CacheEv.acq LockKind.shared, CacheEv.act CacheAction.findMethod,
       CacheEv.rel LockKind.shared]
  | none =>
      [CacheEv.acq LockKind.shared, CacheEv.act CacheAction.findMethod,
       CacheEv.rel LockKind.shared, CacheEv.act CacheAction.loadEntryCall] ++
      match LoadEntry policy jvmti method with
      | none => [CacheEv.act CacheAction.allocEmptyEntry]
      | some _ =>
          [CacheEv.acq LockKind.exclusive, CacheEv.act CacheAction.insertMethod,
           CacheEv.rel LockKind.exclusive]

/-- Instrumented `MethodLocals::JvmtiOnCompiledMethodUnload` (`method_locals.cc`
lines 33-35): the body is the single statement `method_vars_.erase(method);`,
with no lock acquisition. -/
def JvmtiOnCompiledMethodUnloadTrace : List CacheEv :=
  [CacheEv.act CacheAction.eraseMethod]

/-- Pairs every cache action of a trace with the multiset of locks held at the
moment it executes (locks tracked as a list). -/
def actionsWithHeld : List CacheEv → List LockKind →
    List (CacheAction × List LockKind)
  | [], _ => []
  | CacheEv.acq k :: rest, held => actionsWithHeld rest (k :: held)
  | CacheEv.rel k :: rest, held => actionsWithHeld rest (held.erase k)
  | CacheEv.act a :: rest, held => (a, held) :: actionsWithHeld rest held

/-- The `Debugger` state touched by `Debugger::JvmtiOnCompiledMethodUnload`.
Modelled from the spec: `EvalCallStack` and `JvmBreakpointsManager` are
external collaborators whose unload handlers are not part of the provided
sources; each is modelled as the list of handles it has been notified about. -/
structure DebuggerUnloadState where
  eval_call_stack : List JMethodID
  method_vars : Cache
  breakpoints_manager : List JMethodID

/-- `Debugger::JvmtiOnCompiledMethodUnload` (`debugger.cc` lines 126-132):
forwards the unload to the call-stack cache, the method-metadata cache and
the breakpoints manager. -/
def Debugger_JvmtiOnCompiledMethodUnload (s : DebuggerUnloadState)
    (method : JMethodID) : DebuggerUnloadState :=
  { eval_call_stack := s.eval_call_stack ++ [method]
    method_vars := MethodLocals_JvmtiOnCompiledMethodUnload s.method_vars method
    breakpoints_manager := s.breakpoints_manager ++ [method] }

/-- The two cleanup calls made by `Debugger::~Debugger`. -/
inductive DebuggerCleanupEv where
  | breakpointsManagerCleanup
  | classIndexerCleanup
deriving DecidableEq

/-- `Debugger::~Debugger` (`debugger.cc` lines 86-89): the cleanup calls it
performs, in program order. -/
def debuggerDestructorTrace : List DebuggerCleanupEv :=
  [DebuggerCleanupEv.breakpointsManagerCleanup,
   DebuggerCleanupEv.classIndexerCleanup]

/-- Builds a concrete JVMTI environment from fixed answers (used to evaluate
witnesses on concrete inputs). -/
def mkJvmti (declErr : Nat) (declCls : JClass) (modErr : Nat) (modifiers : Nat)
    (sigErr : Nat) (sig gsig : String) (tableErr : Nat)
    (table : List JvmtiLocalVariableEntry) (argErr : Nat) (argSize : Int) :
    Jvmti :=
  { GetMethodDeclaringClass := fun _ => (declErr, declCls)
    GetMethodModifiers := fun _ => (modErr, modifiers)
    GetClassSignature := fun _ => (sigErr, sig, gsig)
    GetLocalVariableTable := fun _ => (tableErr, table)
    GetArgumentsSize := fun _ => (argErr, argSize) }

/-- A raw local-variable table row with a given name and slot. -/
def sampleVar (nm : String) (slot : Int) : JvmtiLocalVariableEntry :=
  { start_location := 0
    length := 10
    name := nm
    signature := "I"
    generic_signature := ""
    slot := slot }

/-- Concrete JVMTI environment: every call succeeds, non-static method,
four-row variable table with slots 0..3, argument size 2. -/
def jvOk : Jvmti :=
  mkJvmti 0 55 0 1 0 "LFoo;" "" 0
    [sampleVar "a" 0, sampleVar "b" 1, sampleVar "x" 2, sampleVar "y" 3] 0 2

/-- Concrete JVMTI environment: `GetMethodDeclaringClass` fails (error 112,
`JVMTI_ERROR_INTERNAL`-like), everything else succeeds. -/
def jvFailDecl : Jvmti :=
  mkJvmti 112 55 0 1 0 "LFoo;" "" 0 [sampleVar "a" 0] 0 1

/-- Concrete JVMTI environment: `GetLocalVariableTable` fails with an error
that is neither absent-information nor native-method. -/
def jvFailTable : Jvmti :=
  mkJvmti 0 55 0 1 0 "LFoo;" "" 112 [] 0 0

/-- Concrete JVMTI environment: `GetLocalVariableTable` reports
`JVMTI_ERROR_ABSENT_INFORMATION`. -/
def jvAbsent : Jvmti :=
  mkJvmti 0 55 0 1 0 "LFoo;" "" 101 [sampleVar "a" 0] 0 1

/-- Concrete JVMTI environment: static method (modifier bit 0x8 set). -/
def jvStatic : Jvmti :=
  mkJvmti 0 55 0 9 0 "LFoo;" "" 0 [sampleVar "a" 0] 0 1

/-- Concrete JVMTI environment: `GetArgumentsSize` fails; table has slots
0 and 1. -/
def jvFailArgs : Jvmti :=
  mkJvmti 0 55 0 1 0 "LFoo;" "" 0 [sampleVar "a" 0, sampleVar "b" 1] 112 1

/-- The entry `jvOk` loads for any method handle. -/
def jvOkEntry : Entry :=
  { local_instance := some
      { variable_entry :=
          { start_location := 0
            length := -1
            name := "this"
            signature := "LFoo;"
            generic_signature := ""
            slot := 0 }
        is_argument := true }
    locals :=
      [ { variable_entry := sampleVar "a" 0, is_argument := true }
      , { variable_entry := sampleVar "b" 1, is_argument := true }
      , { variable_entry := sampleVar "x" 2, is_argument := false }
      , { variable_entry := sampleVar "y" 3, is_argument := false } ] }

/-- Concrete JVMTI environment: `GetMethodModifiers` fails. -/
def jvFailMods : Jvmti :=
  mkJvmti 0 55 112 1 0 "LFoo;" "" 0 [sampleVar "a" 0] 0 1

/-- The entry `jvFailArgs` loads: `GetArgumentsSize` failed, so every table
row is classified as a local. -/
def jvFailArgsEntry : Entry :=
  { local_instance := some
      { variable_entry :=
          { start_location := 0
            length := -1
            name := "this"
            signature := "LFoo;"
            generic_signature := ""
            slot := 0 }
        is_argument := true }
    locals :=
      [ { variable_entry := sampleVar "a" 0, is_argument := false }
      , { variable_entry := sampleVar "b" 1, is_argument := false } ] }

/-- A distinguishable pre-existing entry used as a concurrent winner. -/
def winnerEntry : Entry := { local_instance := none, locals := [] }

/-- A cache already holding `winnerEntry` for handle 7. -/
def primedCache : Cache := fun k => if k = 7 then some winnerEntry else none

/-- A policy that denies local-variable visibility everywhere. -/
def denyAllPolicy : PolicyPtr :=
  some { IsLocalVariablesDebuggerVisible := fun _ _ => false }

/-- Debugger state whose metadata cache holds an entry for handle 7. -/
def debuggerStatePrimed : DebuggerUnloadState :=
  { eval_call_stack := [], method_vars := primedCache, breakpoints_manager := [] }

/-- Debugger state with an empty metadata cache. -/
def debuggerStateEmpty : DebuggerUnloadState :=
  { eval_call_stack := [], method_vars := emptyCache, breakpoints_manager := [] }

/-! ### Helper lemmas about `LoadEntry` and `LoadLocalInstance` -/

theorem loadLocalInstance_of_modFail (jvmti : Jvmti) (cls : JClass)
    (method : JMethodID)
    (h : (jvmti.GetMethodModifiers method).1 ≠ JVMTI_ERROR_NONE) :
    LoadLocalInstance jvmti cls method = none := by
  simp [LoadLocalInstance, h]

theorem loadLocalInstance_of_static (jvmti : Jvmti) (cls : JClass)
    (method : JMethodID)
    (h1 : (jvmti.GetMethodModifiers method).1 = JVMTI_ERROR_NONE)
    (h2 : (jvmti.GetMethodModifiers method).2 &&& JVM_ACC_STATIC ≠ 0) :
    LoadLocalInstance jvmti cls method = none := by
  simp [LoadLocalInstance, h1, h2]

theorem loadLocalInstance_of_sigFail (jvmti : Jvmti) (cls : JClass)
    (method : JMethodID)
    (h1 : (jvmti.GetMethodModifiers method).1 = JVMTI_ERROR_NONE)
    (h2 : (jvmti.GetClassSignature cls).1 ≠ JVMTI_ERROR_NONE) :
    LoadLocalInstance jvmti cls method = none := by
  simp [LoadLocalInstance, h1, h2]

theorem loadLocalInstance_of_ok (jvmti : Jvmti) (cls : JClass)
    (method : JMethodID)
    (h1 : (jvmti.GetMethodModifiers method).1 = JVMTI_ERROR_NONE)
    (h2 : (jvmti.GetMethodModifiers method).2 &&& JVM_ACC_STATIC = 0)
    (h3 : (jvmti.GetClassSignature cls).1 = JVMTI_ERROR_NONE) :
    LoadLocalInstance jvmti cls method = some
      { variable_entry :=
          { start_location := 0
            length := -1
            name := "this"
            signature := (jvmti.GetClassSignature cls).2.1
            generic_signature := (jvmti.GetClassSignature cls).2.2
            slot := 0 }
        is_argument := true } := by
  simp [LoadLocalInstance, h1, h2, h3]

theorem loadEntry_of_declFail (policy : PolicyPtr) (jvmti : Jvmti)
    (method : JMethodID)
    (h : (jvmti.GetMethodDeclaringClass method).1 ≠ JVMTI_ERROR_NONE) :
    LoadEntry policy jvmti method = none := by
  simp [LoadEntry, h]

theorem loadEntry_of_denied (policy : PolicyPtr) (jvmti : Jvmti)
    (method : JMethodID)
    (h1 : (jvmti.GetMethodDeclaringClass method).1 = JVMTI_ERROR_NONE)
    (h2 : policyDenies policy (jvmti.GetMethodDeclaringClass method).2 method
            = true) :
    LoadEntry policy jvmti method = some
      { local_instance :=
          LoadLocalInstance jvmti (jvmti.GetMethodDeclaringClass method).2 method
        locals := [] } := by
  simp [LoadEntry, h1, h2]

theorem loadEntry_of_tableFail (policy : PolicyPtr) (jvmti : Jvmti)
    (method : JMethodID)
    (h1 : (jvmti.GetMethodDeclaringClass method).1 = JVMTI_ERROR_NONE)
    (h2 : policyDenies policy (jvmti.GetMethodDeclaringClass method).2 method
            = false)
    (h3 : (jvmti.GetLocalVariableTable method).1 ≠ JVMTI_ERROR_NONE)
    (h4 : (jvmti.GetLocalVariableTable method).1 ≠ JVMTI_ERROR_ABSENT_INFORMATION)
    (h5 : (jvmti.GetLocalVariableTable method).1 ≠ JVMTI_ERROR_NATIVE_METHOD) :
    LoadEntry policy jvmti method = none := by
  simp [LoadEntry, h1, h2, h3, h4, h5]

theorem loadEntry_of_tableAbsent (policy : PolicyPtr) (jvmti : Jvmti)
    (method : JMethodID)
    (h1 : (jvmti.GetMethodDeclaringClass method).1 = JVMTI_ERROR_NONE)
    (h2 : policyDenies policy (jvmti.GetMethodDeclaringClass method).2 method
            = false)
    (h3 : (jvmti.GetLocalVariableTable method).1 = JVMTI_ERROR_ABSENT_INFORMATION
          ∨ (jvmti.GetLocalVariableTable method).1 = JVMTI_ERROR_NATIVE_METHOD) :
    LoadEntry policy jvmti method = some
      { local_instance :=
          LoadLocalInstance jvmti (jvmti.GetMethodDeclaringClass method).2 method
        locals := [] } := by
  have h4 : (jvmti.GetLocalVariableTable method).1 ≠ JVMTI_ERROR_NONE := by
    rcases h3 with h3 | h3 <;> rw [h3] <;> simp [JVMTI_ERROR_NONE,
      JVMTI_ERROR_ABSENT_INFORMATION, JVMTI_ERROR_NATIVE_METHOD]
  rcases h3 with h3 | h3 <;>
    simp [LoadEntry, h1, h2, h3, h4, JVMTI_ERROR_NONE,
      JVMTI_ERROR_ABSENT_INFORMATION, JVMTI_ERROR_NATIVE_METHOD]

/-- The effective `arguments_size` value that `LoadEntry` uses for
classification, including the degrade-to-zero fallback. -/
def effectiveArgumentsSize (jvmti : Jvmti) (method : JMethodID) : Int :=
  if 0 < (jvmti.GetLocalVariableTable method).2.length then
    if (jvmti.GetArgumentsSize method).1 ≠ JVMTI_ERROR_NONE then 0
    else (jvmti.GetArgumentsSize method).2
  else 0

theorem loadEntry_of_tableOk (policy : PolicyPtr) (jvmti : Jvmti)
    (method : JMethodID)
    (h1 : (jvmti.GetMethodDeclaringClass method).1 = JVMTI_ERROR_NONE)
    (h2 : policyDenies policy (jvmti.GetMethodDeclaringClass method).2 method
            = false)
    (h3 : (jvmti.GetLocalVariableTable method).1 = JVMTI_ERROR_NONE) :
    LoadEntry policy jvmti method = some
      { local_instance :=
          LoadLocalInstance jvmti (jvmti.GetMethodDeclaringClass method).2 method
        locals := (jvmti.GetLocalVariableTable method).2.map fun v =>
          { variable_entry := v
            is_argument :=
              decide (v.slot < effectiveArgumentsSize jvmti method) } } := by
  simp [LoadEntry, h1, h2, h3, effectiveArgumentsSize]

theorem loadEntry_eq_none_iff (policy : PolicyPtr) (jvmti : Jvmti)
    (method : JMethodID) :
    LoadEntry policy jvmti method = none ↔
      (jvmti.GetMethodDeclaringClass method).1 ≠ JVMTI_ERROR_NONE ∨
      ((jvmti.GetMethodDeclaringClass method).1 = JVMTI_ERROR_NONE ∧
       policyDenies policy (jvmti.GetMethodDeclaringClass method).2 method
         = false ∧
       (jvmti.GetLocalVariableTable method).1 ≠ JVMTI_ERROR_NONE ∧
       (jvmti.GetLocalVariableTable method).1 ≠ JVMTI_ERROR_ABSENT_INFORMATION ∧
       (jvmti.GetLocalVariableTable method).1 ≠ JVMTI_ERROR_NATIVE_METHOD) := by
  by_cases h1 : (jvmti.GetMethodDeclaringClass method).1 = JVMTI_ERROR_NONE
  · by_cases h2 : policyDenies policy (jvmti.GetMethodDeclaringClass method).2
        method = true
    · simp [loadEntry_of_denied policy jvmti method h1 h2, h1, h2]
    · rw [Bool.not_eq_true] at h2
      by_cases h3 : (jvmti.GetLocalVariableTable method).1 = JVMTI_ERROR_NONE
      · simp [loadEntry_of_tableOk policy jvmti method h1 h2 h3, h1, h2, h3]
      · by_cases h4 : (jvmti.GetLocalVariableTable method).1
            = JVMTI_ERROR_ABSENT_INFORMATION ∨
            (jvmti.GetLocalVariableTable method).1 = JVMTI_ERROR_NATIVE_METHOD
        · have := loadEntry_of_tableAbsent policy jvmti method h1 h2 h4
          simp [this, h1, h2, h3]
          rcases h4 with h4 | h4 <;> simp [h4]
        · push_neg at h4
          have := loadEntry_of_tableFail policy jvmti method h1 h2 h3 h4.1 h4.2
          simp [this, h1, h2, h3, h4.1, h4.2]
  · simp [loadEntry_of_declFail policy jvmti method h1, h1]

/-! ### Helper lemmas about the cache operations -/

theorem method_vars_erase_self (c : Cache) (method : JMethodID) :
    method_vars_erase c method method = none := by
  simp [method_vars_erase]

theorem method_vars_erase_other (c : Cache) (method k : JMethodID)
    (h : k ≠ method) : method_vars_erase c method k = c k := by
  simp [method_vars_erase, h]

theorem method_vars_erase_of_absent (c : Cache) (method : JMethodID)
    (h : c method = none) : method_vars_erase c method = c := by
  funext k
  by_cases hk : k = method
  · subst hk; simp [method_vars_erase, h]
  · simp [method_vars_erase, hk]

theorem getLocalVariables_hit (policy : PolicyPtr) (jvmti : Jvmti) (c : Cache)
    (method : JMethodID) (e : Entry) (h : c method = some e) :
    GetLocalVariables policy jvmti c method = (c, e) := by
  simp [GetLocalVariables, h]

theorem getLocalVariables_miss_fail (policy : PolicyPtr) (jvmti : Jvmti)
    (c : Cache) (method : JMethodID) (h1 : c method = none)
    (h2 : LoadEntry policy jvmti method = none) :
    GetLocalVariables policy jvmti c method =
      (c, { local_instance := none, locals := [] }) := by
  simp [GetLocalVariables, getLocalVariablesSlowPath, h1, h2]

theorem getLocalVariables_miss_ok (policy : PolicyPtr) (jvmti : Jvmti)
    (c : Cache) (method : JMethodID) (l : Entry) (h1 : c method = none)
    (h2 : LoadEntry policy jvmti method = some l) :
    GetLocalVariables policy jvmti c method =
      ((fun k => if k = method then some l else c k), l) := by
  simp [GetLocalVariables, getLocalVariablesSlowPath, method_vars_insert, h1, h2]

theorem runGetLocalVariables_append (policy : PolicyPtr) (method : JMethodID) :
    ∀ (xs : List Jvmti) (c : Cache) (ys : List Jvmti),
      runGetLocalVariables policy c method (xs ++ ys) =
        runGetLocalVariables policy (runGetLocalVariables policy c method xs)
          method ys
  | [], _, _ => rfl
  | _ :: xs, _, ys => runGetLocalVariables_append policy method xs _ ys

theorem runGetLocalVariables_failures (policy : PolicyPtr) (method : JMethodID) :
    ∀ (js : List Jvmti) (c : Cache), c method = none →
      (∀ j ∈ js, LoadEntry policy j method = none) →
      runGetLocalVariables policy c method js = c
  | [], _, _, _ => rfl
  | j :: js, c, hc, h => by
      simp only [runGetLocalVariables]
      rw [getLocalVariables_miss_fail policy j c method hc
        (h j (List.mem_cons_self j js))]
      exact runGetLocalVariables_failures policy method js c hc
        fun x hx => h x (List.mem_cons_of_mem j hx)

theorem concurrentFirstAccess_hit (c : Cache) (method : JMethodID) (w : Entry)
    (h : c method = some w) :
    ∀ es : List Entry,
      concurrentFirstAccess c method es = (c, es.map fun _ => w)
  | [] => rfl
  | e :: es => by
      simp only [concurrentFirstAccess, method_vars_insert, h]
      rw [concurrentFirstAccess_hit c method w h es]
      simp

/-! ### Claim theorems -/

/-- C1: when the load algorithm fails (transiently), `GetLocalVariables`
returns a freshly allocated empty entry and the cache mapping is left exactly
as it was (the failure is never stored), so the next call re-runs the load;
and if the load fails transiently for every environment in `js` and then
succeeds with entry `e`, the cache afterwards holds `e` for the handle, not a
failure marker. -/
theorem getLocalVariables_transient_failure_uncached (policy : PolicyPtr)
    (jvmti : Jvmti) (c : Cache) (method : JMethodID) (js : List Jvmti)
    (jsucc : Jvmti) (e : Entry) (hc : c method = none) :
    (LoadEntry policy jvmti method = none →
      GetLocalVariables policy jvmti c method =
        (c, { local_instance := none, locals := [] })) ∧
    ((∀ j ∈ js, LoadEntry policy j method = none) →
      LoadEntry policy jsucc method = some e →
      runGetLocalVariables policy c method (js ++ [jsucc]) method = some e) := by
  constructor
  · intro hfail
    exact getLocalVariables_miss_fail policy jvmti c method hc hfail
  · intro hall hsucc
    rw [runGetLocalVariables_append policy method js c [jsucc],
      runGetLocalVariables_failures policy method js c hc hall]
    simp only [runGetLocalVariables]
    rw [getLocalVariables_miss_ok policy jsucc c method e hc hsucc]
    simp [runGetLocalVariables]

/-- C1 witness: with an empty cache and handle 7, a call against the
environment whose declaring-class lookup fails returns the empty uncached
entry, and after one such transient failure followed by a success the cache
holds the successful entry. -/
theorem getLocalVariables_transient_failure_uncached_witness :
    GetLocalVariables none jvFailDecl emptyCache 7 =
      (emptyCache, { local_instance := none, locals := [] }) ∧
    runGetLocalVariables none emptyCache 7 [jvFailDecl, jvOk] 7 =
      some jvOkEntry := by
  have h := getLocalVariables_transient_failure_uncached none jvFailDecl
    emptyCache 7 [jvFailDecl] jvOk jvOkEntry rfl
  exact ⟨h.1 (by decide), h.2 (by decide) (by decide)⟩

/-- C2: `std::map::insert` never overwrites, so at most one entry is stored
per handle: (a) if an entry for the handle was inserted concurrently between
the lookup and the write-locked insert, the just-computed entry is discarded,
the cache is unchanged and the previously inserted winner is returned; (b) N
racing cold-cache threads, linearised at the write lock, all receive the
first-inserted entry, which is the single entry stored, and no other handle
is touched. -/
theorem methodLocals_single_entry_per_handle :
    (∀ (policy : PolicyPtr) (jvmti : Jvmti) (c : Cache) (method : JMethodID)
       (w l : Entry), c method = some w → LoadEntry policy jvmti method = some l →
       getLocalVariablesSlowPath policy jvmti c method = (c, w)) ∧
    (∀ (c : Cache) (method : JMethodID) (e : Entry) (es : List Entry),
       c method = none →
       (concurrentFirstAccess c method (e :: es)).1 method = some e ∧
       (concurrentFirstAccess c method (e :: es)).2 =
         (e :: es).map (fun _ => e) ∧
       ∀ k, k ≠ method →
         (concurrentFirstAccess c method (e :: es)).1 k = c k) := by
  constructor
  · intro policy jvmti c method w l hw hl
    simp [getLocalVariablesSlowPath, method_vars_insert, hl, hw]
  · intro c method e es hc
    have hstep : method_vars_insert c method e =
        ((fun k => if k = method then some e else c k), e) := by
      simp [method_vars_insert, hc]
    have hhit : (fun k => if k = method then some e else c k) method
        = some e := by simp
    simp only [concurrentFirstAccess, hstep]
    rw [concurrentFirstAccess_hit _ method e hhit es]
    refine ⟨by simp, by simp, ?_⟩
    intro k hk
    simp [hk]

/-- C2 witness: with `winnerEntry` already cached for handle 7, the slow path
discards the freshly computed entry and returns the winner with the cache
unchanged; and two racing threads on a cold cache both receive the
first-inserted entry, which is the one stored. -/
theorem methodLocals_single_entry_per_handle_witness :
    getLocalVariablesSlowPath none jvOk primedCache 7 =
      (primedCache, winnerEntry) ∧
    (concurrentFirstAccess emptyCache 7 [jvOkEntry, winnerEntry]).1 7 =
      some jvOkEntry ∧
    (concurrentFirstAccess emptyCache 7 [jvOkEntry, winnerEntry]).2 =
      [jvOkEntry, jvOkEntry] := by
  have h := methodLocals_single_entry_per_handle
  have h2 := h.2 emptyCache 7 jvOkEntry [winnerEntry] rfl
  exact ⟨h.1 none jvOk primedCache 7 winnerEntry jvOkEntry (by decide)
    (by decide), h2.1, h2.2.1⟩

/-- C3: the load algorithm produces no entry exactly when the declaring-class
lookup fails, or when it succeeds, the visibility policy does not deny, and
the local-variable-table lookup fails with an error other than
absent-information or native-method; those two specific errors instead
produce a valid entry with no local variables. -/
theorem loadEntry_failure_characterization (policy : PolicyPtr) (jvmti : Jvmti)
    (method : JMethodID) :
    (LoadEntry policy jvmti method = none ↔
      (jvmti.GetMethodDeclaringClass method).1 ≠ JVMTI_ERROR_NONE ∨
      ((jvmti.GetMethodDeclaringClass method).1 = JVMTI_ERROR_NONE ∧
       policyDenies policy (jvmti.GetMethodDeclaringClass method).2 method
         = false ∧
       (jvmti.GetLocalVariableTable method).1 ≠ JVMTI_ERROR_NONE ∧
       (jvmti.GetLocalVariableTable method).1 ≠ JVMTI_ERROR_ABSENT_INFORMATION ∧
       (jvmti.GetLocalVariableTable method).1 ≠ JVMTI_ERROR_NATIVE_METHOD)) ∧
    ((jvmti.GetMethodDeclaringClass method).1 = JVMTI_ERROR_NONE →
      policyDenies policy (jvmti.GetMethodDeclaringClass method).2 method
        = false →
      ((jvmti.GetLocalVariableTable method).1 = JVMTI_ERROR_ABSENT_INFORMATION ∨
       (jvmti.GetLocalVariableTable method).1 = JVMTI_ERROR_NATIVE_METHOD) →
      LoadEntry policy jvmti method = some
        { local_instance := LoadLocalInstance jvmti
            (jvmti.GetMethodDeclaringClass method).2 method
          locals := [] }) :=
  ⟨loadEntry_eq_none_iff policy jvmti method,
   fun h1 h2 h3 => loadEntry_of_tableAbsent policy jvmti method h1 h2 h3⟩

/-- C3 witness: for the environment reporting absent debug information the
load succeeds with an entry that has no locals, and for the environment whose
table lookup fails with another error the load produces no entry. -/
theorem loadEntry_failure_characterization_witness :
    LoadEntry none jvAbsent 7 = some
      { local_instance := LoadLocalInstance jvAbsent 55 7, locals := [] } ∧
    LoadEntry none jvFailTable 7 = none := by
  refine ⟨(loadEntry_failure_characterization none jvAbsent 7).2 rfl rfl
    (Or.inl rfl), ?_⟩
  exact (loadEntry_failure_characterization none jvFailTable 7).1.mpr
    (Or.inr ⟨rfl, rfl, by decide, by decide, by decide⟩)

/-- C4: when a visibility policy is configured and denies local-variable
visibility for the (declaring class, method) pair, the load returns a valid
entry with only the instance descriptor and an empty variable list, and a
cold-cache `GetLocalVariables` call stores exactly that entry (a permanent,
cacheable result, not a failure and not a retry). -/
theorem loadEntry_visibility_denied_cacheable (policy : PolicyPtr)
    (jvmti : Jvmti) (c : Cache) (method : JMethodID)
    (h1 : (jvmti.GetMethodDeclaringClass method).1 = JVMTI_ERROR_NONE)
    (h2 : policyDenies policy (jvmti.GetMethodDeclaringClass method).2 method
            = true) :
    LoadEntry policy jvmti method = some
      { local_instance := LoadLocalInstance jvmti
          (jvmti.GetMethodDeclaringClass method).2 method
        locals := [] } ∧
    (c method = none →
      (GetLocalVariables policy jvmti c method).1 method = some
        { local_instance := LoadLocalInstance jvmti
            (jvmti.GetMethodDeclaringClass method).2 method
          locals := [] } ∧
      (GetLocalVariables policy jvmti c method).2 =
        { local_instance := LoadLocalInstance jvmti
            (jvmti.GetMethodDeclaringClass method).2 method
          locals := [] }) := by
  have hload := loadEntry_of_denied policy jvmti method h1 h2
  refine ⟨hload, fun hc => ?_⟩
  rw [getLocalVariables_miss_ok policy jvmti c method _ hc hload]
  simp

/-- C4 witness: with the deny-all policy and handle 7 the load returns the
instance-descriptor-only entry, and a cold-cache call caches it. -/
theorem loadEntry_visibility_denied_cacheable_witness :
    LoadEntry denyAllPolicy jvOk 7 = some
      { local_instance := LoadLocalInstance jvOk 55 7, locals := [] } ∧
    (GetLocalVariables denyAllPolicy jvOk emptyCache 7).1 7 = some
      { local_instance := LoadLocalInstance jvOk 55 7, locals := [] } ∧
    (GetLocalVariables denyAllPolicy jvOk emptyCache 7).2 =
      { local_instance := LoadLocalInstance jvOk 55 7, locals := [] } := by
  have h := loadEntry_visibility_denied_cacheable denyAllPolicy jvOk emptyCache
    7 rfl rfl
  exact ⟨h.1, (h.2 rfl).1, (h.2 rfl).2⟩

/-- C5: static methods never receive an instance descriptor; a non-static
method whose modifiers and declaring-class signature resolve successfully
gets the "this" descriptor with slot 0, validity spanning the whole method
body (start 0, length -1), marked as an argument; any introspection failure
while resolving the modifiers or the class signature yields no instance
descriptor, and (given the declaring class resolved) does not abort the
load — whether the load fails is determined solely by the policy and the
variable-table lookup. -/
theorem loadLocalInstance_static_and_resolution (jvmti : Jvmti) (cls : JClass)
    (policy : PolicyPtr) (method : JMethodID) :
    ((jvmti.GetMethodModifiers method).1 = JVMTI_ERROR_NONE →
      (jvmti.GetMethodModifiers method).2 &&& JVM_ACC_STATIC ≠ 0 →
      LoadLocalInstance jvmti cls method = none) ∧
    ((jvmti.GetMethodModifiers method).1 = JVMTI_ERROR_NONE →
      (jvmti.GetMethodModifiers method).2 &&& JVM_ACC_STATIC = 0 →
      (jvmti.GetClassSignature cls).1 = JVMTI_ERROR_NONE →
      LoadLocalInstance jvmti cls method = some
        { variable_entry :=
            { start_location := 0
              length := -1
              name := "this"
              signature := (jvmti.GetClassSignature cls).2.1
              generic_signature := (jvmti.GetClassSignature cls).2.2
              slot := 0 }
          is_argument := true }) ∧
    (((jvmti.GetMethodModifiers method).1 ≠ JVMTI_ERROR_NONE ∨
      (jvmti.GetClassSignature cls).1 ≠ JVMTI_ERROR_NONE) →
      LoadLocalInstance jvmti cls method = none) ∧
    ((jvmti.GetMethodDeclaringClass method).1 = JVMTI_ERROR_NONE →
      (LoadEntry policy jvmti method = none ↔
        (policyDenies policy (jvmti.GetMethodDeclaringClass method).2 method
           = false ∧
         (jvmti.GetLocalVariableTable method).1 ≠ JVMTI_ERROR_NONE ∧
         (jvmti.GetLocalVariableTable method).1
           ≠ JVMTI_ERROR_ABSENT_INFORMATION ∧
         (jvmti.GetLocalVariableTable method).1
           ≠ JVMTI_ERROR_NATIVE_METHOD))) := by
  refine ⟨loadLocalInstance_of_static jvmti cls method,
    loadLocalInstance_of_ok jvmti cls method, ?_, ?_⟩
  · intro h
    by_cases hm : (jvmti.GetMethodModifiers method).1 = JVMTI_ERROR_NONE
    · have hs : (jvmti.GetClassSignature cls).1 ≠ JVMTI_ERROR_NONE := by
        rcases h with h | h
        · exact absurd hm h
        · exact h
      by_cases hstatic :
          (jvmti.GetMethodModifiers method).2 &&& JVM_ACC_STATIC = 0
      · exact loadLocalInstance_of_sigFail jvmti cls method hm hs
      · exact loadLocalInstance_of_static jvmti cls method hm hstatic
    · exact loadLocalInstance_of_modFail jvmti cls method hm
  · intro h1
    rw [loadEntry_eq_none_iff policy jvmti method]
    simp [h1]

/-- C5 witness: the static-method environment yields no instance descriptor;
the fully resolving non-static environment yields the "this" descriptor; the
environment with failing modifier lookup yields no instance descriptor, yet
its load still produces an entry. -/
theorem loadLocalInstance_static_and_resolution_witness :
    LoadLocalInstance jvStatic 55 7 = none ∧
    LoadLocalInstance jvOk 55 7 = some
      { variable_entry :=
          { start_location := 0
            length := -1
            name := "this"
            signature := "LFoo;"
            generic_signature := ""
            slot := 0 }
        is_argument := true } ∧
    LoadLocalInstance jvFailMods 55 7 = none ∧
    (LoadEntry none jvFailMods 7).isSome = true := by
  refine ⟨(loadLocalInstance_static_and_resolution jvStatic 55 none 7).1 rfl
      (by decide),
    (loadLocalInstance_static_and_resolution jvOk 55 none 7).2.1 rfl (by decide)
      rfl,
    (loadLocalInstance_static_and_resolution jvFailMods 55 none 7).2.2.1
      (Or.inl (by decide)), ?_⟩
  refine Option.isSome_iff_ne_none.mpr fun hn => ?_
  have h := ((loadLocalInstance_static_and_resolution jvFailMods 55 none
    7).2.2.2 rfl).mp hn
  exact h.2.1 (by decide)

/-- C6: for a successfully fetched local-variable table, each raw row is
classified as an argument exactly when its slot index is below the effective
argument-slot count, the descriptors appear in original table order, and an
argument-slot-count lookup failure degrades the count to zero (every row with
a non-negative slot classified as a local) while the load still succeeds. -/
theorem loadEntry_argument_classification (policy : PolicyPtr) (jvmti : Jvmti)
    (method : JMethodID)
    (h1 : (jvmti.GetMethodDeclaringClass method).1 = JVMTI_ERROR_NONE)
    (h2 : policyDenies policy (jvmti.GetMethodDeclaringClass method).2 method
            = false)
    (h3 : (jvmti.GetLocalVariableTable method).1 = JVMTI_ERROR_NONE) :
    LoadEntry policy jvmti method = some
      { local_instance := LoadLocalInstance jvmti
          (jvmti.GetMethodDeclaringClass method).2 method
        locals := (jvmti.GetLocalVariableTable method).2.map fun v =>
          { variable_entry := v
            is_argument :=
              decide (v.slot < effectiveArgumentsSize jvmti method) } } ∧
    ((jvmti.GetLocalVariableTable method).2.map fun v =>
      ({ variable_entry := v
         is_argument :=
           decide (v.slot < effectiveArgumentsSize jvmti method) }
        : JvmLocalVariableReader)).map (fun r => r.variable_entry) =
      (jvmti.GetLocalVariableTable method).2 ∧
    ((jvmti.GetArgumentsSize method).1 ≠ JVMTI_ERROR_NONE →
      ∀ r ∈ (jvmti.GetLocalVariableTable method).2.map fun v =>
          ({ variable_entry := v
             is_argument :=
               decide (v.slot < effectiveArgumentsSize jvmti method) }
            : JvmLocalVariableReader),
        0 ≤ r.variable_entry.slot → r.is_argument = false) := by
  refine ⟨loadEntry_of_tableOk policy jvmti method h1 h2 h3, ?_, ?_⟩
  · rw [List.map_map]
    exact List.map_id'' (fun _ => rfl) _
  · intro ha r hr hslot
    have heff : effectiveArgumentsSize jvmti method = 0 := by
      simp [effectiveArgumentsSize, ha]
    rcases List.mem_map.mp hr with ⟨v, _, rfl⟩
    simp only [heff] at hslot ⊢
    rw [decide_eq_false]
    exact not_lt.mpr hslot

/-- C6 witness: slots [0,1,2,3] with argument-slot-count 2 classify as
[argument, argument, local, local] in table order; with a failing
argument-size lookup, slots [0,1] both classify as locals and the load
succeeds. -/
theorem loadEntry_argument_classification_witness :
    LoadEntry none jvOk 7 = some jvOkEntry ∧
    LoadEntry none jvFailArgs 7 = some jvFailArgsEntry :=
  ⟨(loadEntry_argument_classification none jvOk 7 rfl rfl rfl).1,
   (loadEntry_argument_classification none jvFailArgs 7 rfl rfl rfl).1⟩

/-- C7: after the orchestrator's unload handler runs for handle `method`, the
metadata cache holds no mapping for it; the removal is a no-op on a cache
without such a mapping; and the next `GetLocalVariables` call for the handle
takes the slow path — a fresh load — whose result is exactly what `LoadEntry`
now produces, not any previously cached entry. -/
theorem debugger_unload_evicts_cache (s : DebuggerUnloadState)
    (method : JMethodID) (policy : PolicyPtr) (jvmti : Jvmti) :
    ((Debugger_JvmtiOnCompiledMethodUnload s method).method_vars method
      = none) ∧
    (s.method_vars method = none →
      (Debugger_JvmtiOnCompiledMethodUnload s method).method_vars
        = s.method_vars) ∧
    (GetLocalVariables policy jvmti
        (Debugger_JvmtiOnCompiledMethodUnload s method).method_vars method =
      getLocalVariablesSlowPath policy jvmti
        (Debugger_JvmtiOnCompiledMethodUnload s method).method_vars method) ∧
    (∀ l, LoadEntry policy jvmti method = some l →
      (GetLocalVariables policy jvmti
        (Debugger_JvmtiOnCompiledMethodUnload s method).method_vars method).2
        = l) := by
  have h0 : (Debugger_JvmtiOnCompiledMethodUnload s method).method_vars method
      = none := by
    simp [Debugger_JvmtiOnCompiledMethodUnload,
      MethodLocals_JvmtiOnCompiledMethodUnload, method_vars_erase]
  refine ⟨h0, ?_, ?_, ?_⟩
  · intro h
    exact method_vars_erase_of_absent s.method_vars method h
  · simp [GetLocalVariables, h0]
  · intro l hl
    rw [getLocalVariables_miss_ok policy jvmti _ method l h0 hl]

/-- C7 witness: unloading handle 7 from the primed debugger state evicts its
mapping, unloading from the empty state is a no-op, and the next call after
the eviction returns the freshly loaded entry. -/
theorem debugger_unload_evicts_cache_witness :
    (Debugger_JvmtiOnCompiledMethodUnload debuggerStatePrimed 7).method_vars 7
      = none ∧
    (Debugger_JvmtiOnCompiledMethodUnload debuggerStateEmpty 7).method_vars
      = emptyCache ∧
    (GetLocalVariables none jvOk
      (Debugger_JvmtiOnCompiledMethodUnload debuggerStatePrimed 7).method_vars
      7).2 = jvOkEntry := by
  have hp := debugger_unload_evicts_cache debuggerStatePrimed 7 none jvOk
  have he := debugger_unload_evicts_cache debuggerStateEmpty 7 none jvOk
  exact ⟨hp.1, he.2.1 rfl, hp.2.2.2 jvOkEntry (by decide)⟩

/-- C8: the orchestrator's destructor performs the breakpoint manager's
cleanup strictly before the class indexer's cleanup. -/
theorem debugger_destructor_cleanup_order :
    DebuggerCleanupEv.breakpointsManagerCleanup ∈ debuggerDestructorTrace ∧
    DebuggerCleanupEv.classIndexerCleanup ∈ debuggerDestructorTrace ∧
    debuggerDestructorTrace.indexOf
        DebuggerCleanupEv.breakpointsManagerCleanup <
      debuggerDestructorTrace.indexOf DebuggerCleanupEv.classIndexerCleanup :=
  by decide

/-- C9 (divergence from the claim): the body of
`MethodLocals::JvmtiOnCompiledMethodUnload` is the bare statement
`method_vars_.erase(method);` — the erase executes while no lock on `mu_` is
held at all, not under the exclusive lock. -/
theorem methodLocals_unload_erase_runs_unlocked :
    actionsWithHeld JvmtiOnCompiledMethodUnloadTrace [] =
      [(CacheAction.eraseMethod, [])] :=
  rfl

/-- C10: operations on handle `method` leave every other handle's mapping
unchanged — `GetLocalVariables` inserts at most the mapping for `method`, and
the cache's unload handler erases at most the mapping for `method`. -/
theorem cache_frame_other_handles (policy : PolicyPtr) (jvmti : Jvmti)
    (c : Cache) (method k : JMethodID) (h : k ≠ method) :
    (GetLocalVariables policy jvmti c method).1 k = c k ∧
    MethodLocals_JvmtiOnCompiledMethodUnload c method k = c k := by
  constructor
  · cases hm : c method with
    | some e => rw [getLocalVariables_hit policy jvmti c method e hm]
    | none =>
      cases hl : LoadEntry policy jvmti method with
      | none => rw [getLocalVariables_miss_fail policy jvmti c method hm hl]
      | some l =>
        rw [getLocalVariables_miss_ok policy jvmti c method l hm hl]
        simp [h]
  · exact method_vars_erase_other c method k h

/-- C10 witness: a lookup-and-load for handle 7 and an unload of handle 7
both leave handle 8's (absent) mapping untouched. -/
theorem cache_frame_other_handles_witness :
    (GetLocalVariables none jvOk emptyCache 7).1 8 = emptyCache 8 ∧
    MethodLocals_JvmtiOnCompiledMethodUnload emptyCache 7 8 = emptyCache 8 :=
  cache_frame_other_handles none jvOk emptyCache 7 8 (by decide)
